import Mathlib

/-!
Verification of the query-answering orchestration pipeline of the
F1 Race Intelligence Agent, as implemented by the node functions
`understand_query`, `plan_data_retrieval`, `execute_tools`,
`process_data` and `evaluate_data` of the agent architecture
(src/unnamed/part_000).  The Python node bodies are shallowly embedded
as Lean functions; language-model and tool collaborators are passed as
explicit oracles, and the external calls a node performs are recorded
in an explicit trace so that purity claims can be stated.
-/

namespace F1Agent

/-- An external call performed by a pipeline node: either a
language-model invocation (tagged by the prompt used) or a tool
invocation (tool name and parameters). -/
inductive ExtCall where
  | llm (promptTag : String)
  | tool (toolName : String) (parameters : String)
deriving DecidableEq, Repr

/-- `AnalysisScope` enum of the query-understanding schema. -/
inductive AnalysisScope where
  | single_lap | stint | full_race | multi_race
deriving DecidableEq, Repr

/-- `AnalysisType` enum of the query-understanding schema: the six
intent categories the code declares. -/
inductive AnalysisType where
  | comparison | strategy | pace | telemetry | incident | prediction
deriving DecidableEq, Repr

/-- The string value of each `AnalysisType` member, as declared in the
`str`-valued Python enum. -/
def AnalysisType.str : AnalysisType → String
  | .comparison => "comparison"
  | .strategy => "strategy"
  | .pace => "pace"
  | .telemetry => "telemetry"
  | .incident => "incident"
  | .prediction => "prediction"

/-- The full list of `AnalysisType` members. -/
def allAnalysisTypes : List AnalysisType :=
  [.comparison, .strategy, .pace, .telemetry, .incident, .prediction]

theorem mem_allAnalysisTypes (a : AnalysisType) : a ∈ allAnalysisTypes := by
  cases a <;> simp [allAnalysisTypes]

/-- `QueryUnderstanding` Pydantic model.  Scores are floats compared
only by order in the pipeline; they are embedded as rationals. -/
structure QueryUnderstanding where
  query_type : AnalysisType
  scope : AnalysisScope
  drivers : List String
  teams : List String
  races : List String
  seasons : List Int
  metrics : List String
  sub_queries : List String
  hypothetical_answer : String
  confidence : ℚ
deriving DecidableEq, Repr

/-- `ToolCall` Pydantic model; `parameters` is an opaque payload. -/
structure ToolCall where
  id : String
  tool_name : String
  parameters : String
  depends_on : List String := []
deriving DecidableEq, Repr

/-- `DataPlan` Pydantic model. -/
structure DataPlan where
  tool_calls : List ToolCall
  parallel_groups : List (List String)
  expected_data_points : Int
  reasoning : String
deriving DecidableEq, Repr

/-- `ProcessedAnalysis` Pydantic model; the `summary` dict is an
association list in insertion order, with opaque values. -/
structure ProcessedAnalysis where
  summary : List (String × String)
  key_insights : List String
  completeness_score : ℚ
  confidence_score : ℚ
  missing_data : List String
  recommended_viz : List String
deriving DecidableEq, Repr

/-- The `evaluation` dict literal the EVALUATE node returns. -/
structure EvaluationVal where
  is_sufficient : Bool
  iteration : ℕ
deriving DecidableEq, Repr

/-- The partial state update returned by the EVALUATE node: `none`
models a key absent from the returned dict. -/
structure EvalUpdate where
  evaluation : EvaluationVal
  evaluation_feedback : Option String
  iteration_count : Option ℕ
deriving DecidableEq, Repr

/-- Python `repr` of a `list[str]`, as an f-string renders it:
`[]`, `['a']`, `['a', 'b']`. -/
def pyReprStrList (xs : List String) : String :=
  "[" ++ String.intercalate ", " (xs.map (fun s => "\x27" ++ s ++ "\x27")) ++ "]"

/-- EVALUATE node (`evaluate_data`, src/unnamed/part_000:242-256).
Input: the current `ProcessedAnalysis` and the state's
`iteration_count` (defaulting to 0 upstream).  Output: the external
calls performed (none: the node is pure) and the state update. -/
def evaluate_data (processed : ProcessedAnalysis) (iteration : ℕ) :
    List ExtCall × EvalUpdate :=
  if processed.completeness_score ≥ 7/10 ∨ iteration ≥ 2 then
    ([], { evaluation := ⟨true, iteration⟩
           evaluation_feedback := none
           iteration_count := none })
  else
    ([], { evaluation := ⟨false, iteration + 1⟩
           evaluation_feedback := some ("Missing data: " ++
             pyReprStrList processed.missing_data ++
             ". Need to fetch additional data.")
           iteration_count := some (iteration + 1) })

/-- The spec's three-valued Evaluator outcome (§4.5 of the spec). -/
inductive SpecEvalOutcome where
  | sufficient | exhausted | insufficient
deriving DecidableEq, Repr

/-- Modelled from the spec (§4.5), for comparison with the code's
`evaluate_data`: the spec's Evaluator transition function, with the
default threshold 0.7 and default `maxIterations` 2. -/
def specEvalTransition (score : ℚ) (iteration : ℕ) : SpecEvalOutcome :=
  if score ≥ 7/10 then .sufficient
  else if iteration ≥ 2 then .exhausted
  else .insufficient

/-- Modelled from the spec (§4.5): the feedback template
`"Missing: {missing_data}. Retry with broader/alternate retrieval."`
instantiated with a rendering of the missing-data list. -/
def specFeedbackTemplate (missingRendered : String) : String :=
  "Missing: " ++ missingRendered ++ ". Retry with broader/alternate retrieval."

/-- A `ProcessedAnalysis` with a given completeness score and
missing-data list and default remaining fields, used for instances. -/
def mkProcessed (score : ℚ) (missing : List String) : ProcessedAnalysis :=
  { summary := [], key_insights := [], completeness_score := score
    confidence_score := 0, missing_data := missing, recommended_viz := [] }

/-- Outcome of invoking one tool coroutine: a success payload or a
raised exception (with its message), as `asyncio.gather(...,
return_exceptions=True)` observes it. -/
inductive ToolOutcome where
  | ok (payload : String)
  | exn (msg : String)
deriving DecidableEq, Repr

/-- A value stored in the `results` dict of the EXECUTE node: the
tool's payload, or the `{"error": str(result)}` dict the node builds
from a caught exception. -/
inductive StoredResult where
  | payload (p : String)
  | errorDict (msg : String)
deriving DecidableEq, Repr

/-- How the EXECUTE node records a gathered outcome: a payload is
stored as is, an exception becomes an error dict. -/
def wrapOutcome : ToolOutcome → StoredResult
  | .ok p => .payload p
  | .exn m => .errorDict m

/-- The tool registry: every tool name is assigned a behavior mapping
parameters to an outcome. -/
abbrev Tools := String → String → ToolOutcome

/-- `tools[call.tool_name](**call.parameters)`. -/
def invokeCall (tools : Tools) (c : ToolCall) : ToolOutcome :=
  tools c.tool_name c.parameters

/-- `[call for call in plan.tool_calls if call.id in group]`: the tool
calls gathered for a group, in `tool_calls` order. -/
def matchingCalls (calls : List ToolCall) (group : List String) : List ToolCall :=
  calls.filter (fun c => group.contains c.id)

/-- `zip(group, group_results)`: the id-to-result bindings the EXECUTE
node writes for one group, pairing the group's id list positionally
with the wrapped outcomes of the group's matching calls. -/
def groupBindings (tools : Tools) (calls : List ToolCall) (group : List String) :
    List (String × StoredResult) :=
  group.zip ((matchingCalls calls group).map (fun c => wrapOutcome (invokeCall tools c)))

/-- One `results[tool_id] = result` assignment on the results dict. -/
def assign (m : String → Option StoredResult) (kv : String × StoredResult) :
    String → Option StoredResult :=
  fun x => if x = kv.1 then some kv.2 else m x

/-- Processing of one parallel group: gather the matching calls and
write the zipped bindings into the results dict in order. -/
def runGroup (tools : Tools) (calls : List ToolCall)
    (m : String → Option StoredResult) (group : List String) :
    String → Option StoredResult :=
  (groupBindings tools calls group).foldl assign m

/-- EXECUTE node (`execute_tools`, src/unnamed/part_000:190-204):
iterate the plan's parallel groups in order over an initially empty
results dict. -/
def execute_tools (tools : Tools) (plan : DataPlan) :
    String → Option StoredResult :=
  plan.parallel_groups.foldl (runGroup tools plan.tool_calls) (fun _ => none)

theorem foldl_assign_of_not_mem_keys (bs : List (String × StoredResult))
    (m : String → Option StoredResult) (x : String)
    (h : x ∉ bs.map Prod.fst) : bs.foldl assign m x = m x := by
  induction bs generalizing m with
  | nil => rfl
  | cons kv rest ih =>
    simp only [List.map_cons, List.mem_cons] at h
    push_neg at h
    simp only [List.foldl_cons]
    rw [ih _ h.2]
    simp [assign, h.1]

theorem foldl_assign_of_mem (bs : List (String × StoredResult))
    (m : String → Option StoredResult) (x : String) (v : StoredResult)
    (hnd : (bs.map Prod.fst).Nodup) (hm : (x, v) ∈ bs) :
    bs.foldl assign m x = some v := by
  induction bs generalizing m with
  | nil => simp at hm
  | cons kv rest ih =>
    simp only [List.map_cons, List.nodup_cons] at hnd
    rcases List.mem_cons.mp hm with heq | hrest
    · subst heq
      simp only [List.foldl_cons]
      rw [foldl_assign_of_not_mem_keys _ _ _ hnd.1]
      simp [assign]
    · simp only [List.foldl_cons]
      exact ih _ hnd.2 hrest

theorem mem_of_mem_keys_groupBindings (tools : Tools) (calls : List ToolCall)
    (group : List String) (x : String)
    (h : x ∈ (groupBindings tools calls group).map Prod.fst) : x ∈ group := by
  rcases List.mem_map.mp h with ⟨kv, hkv, hfst⟩
  subst hfst
  exact (List.of_mem_zip hkv).1

theorem runGroup_of_not_mem (tools : Tools) (calls : List ToolCall)
    (m : String → Option StoredResult) (group : List String) (x : String)
    (h : x ∉ group) : runGroup tools calls m group x = m x := by
  unfold runGroup
  apply foldl_assign_of_not_mem_keys
  intro hx
  exact h (mem_of_mem_keys_groupBindings tools calls group x hx)

theorem groupBindings_aligned (tools : Tools) (calls : List ToolCall)
    (group : List String)
    (halign : group = (matchingCalls calls group).map ToolCall.id) :
    groupBindings tools calls group =
      (matchingCalls calls group).map
        (fun c => (c.id, wrapOutcome (invokeCall tools c))) := by
  unfold groupBindings
  nth_rewrite 1 [halign]
  exact List.zip_map' ToolCall.id (fun c => wrapOutcome (invokeCall tools c)) _

theorem runGroup_attrib (tools : Tools) (calls : List ToolCall)
    (m : String → Option StoredResult) (group : List String)
    (hnd : group.Nodup)
    (halign : group = (matchingCalls calls group).map ToolCall.id)
    (c : ToolCall) (hc : c ∈ matchingCalls calls group) :
    runGroup tools calls m group c.id = some (wrapOutcome (invokeCall tools c)) := by
  unfold runGroup
  rw [groupBindings_aligned tools calls group halign]
  apply foldl_assign_of_mem
  · rw [List.map_map]
    have : (Prod.fst ∘ fun c => (c.id, wrapOutcome (invokeCall tools c))) =
        ToolCall.id := rfl
    rw [this, ← halign]
    exact hnd
  · exact List.mem_map.mpr ⟨c, hc, rfl⟩

theorem foldl_runGroup_of_not_mem (tools : Tools) (calls : List ToolCall)
    (L : List (List String)) (m : String → Option StoredResult) (x : String)
    (h : ∀ g ∈ L, x ∉ g) :
    L.foldl (runGroup tools calls) m x = m x := by
  induction L generalizing m with
  | nil => rfl
  | cons g rest ih =>
    simp only [List.foldl_cons]
    rw [ih _ (fun g' hg' => h g' (List.mem_cons_of_mem g hg'))]
    exact runGroup_of_not_mem tools calls m g x (h g (List.mem_cons_self g rest))

theorem map_fst_zip_eq_take {α β : Type} (l1 : List α) (l2 : List β) :
    (l1.zip l2).map Prod.fst = l1.take l2.length := by
  induction l1 generalizing l2 with
  | nil => simp
  | cons a t ih =>
    cases l2 with
    | nil => simp
    | cons b t2 => simp [ih]

theorem runGroup_truncates (tools : Tools) (calls : List ToolCall)
    (m : String → Option StoredResult) (group : List String)
    (hnd : group.Nodup) (x : String)
    (hx : x ∈ group.drop (matchingCalls calls group).length) :
    runGroup tools calls m group x = m x := by
  unfold runGroup
  apply foldl_assign_of_not_mem_keys
  unfold groupBindings
  rw [map_fst_zip_eq_take, List.length_map]
  intro hmem
  have hsplit := List.take_append_drop (matchingCalls calls group).length group
  rw [← hsplit] at hnd
  exact (List.disjoint_of_nodup_append hnd) hmem hx

/-- The plan well-formedness the positional zip of the EXECUTE node
relies on: each group's id list is exactly the ids of its matching
tool calls in `tool_calls` order, without repetition, and distinct
groups share no id. -/
def planAligned (plan : DataPlan) : Prop :=
  (∀ g ∈ plan.parallel_groups,
    g.Nodup ∧ g = (matchingCalls plan.tool_calls g).map ToolCall.id) ∧
  List.Pairwise (fun g g' => ∀ x ∈ g, x ∉ g') plan.parallel_groups

theorem id_mem_of_mem_matchingCalls (calls : List ToolCall)
    (group : List String) (c : ToolCall) (hc : c ∈ matchingCalls calls group) :
    c.id ∈ group := by
  unfold matchingCalls at hc
  have := List.of_mem_filter hc
  simpa using this

/-- A plan whose single group lists the id "b" (which matches no tool
call) before the id "a" of its only call, so the zip records the
call's outcome under "b" and nothing under "a". -/
def c3BadPlan : DataPlan :=
  { tool_calls := [{ id := "a", tool_name := "t", parameters := "p" }]
    parallel_groups := [["b", "a"]]
    expected_data_points := 0
    reasoning := "" }

/-- Lifecycle event of the EXECUTE node: a tool task being started or
resolving (successfully or by raising). -/
inductive Ev where
  | start (id : String)
  | resolve (id : String)
deriving DecidableEq, Repr

/-- The ids of the tasks gathered for one group. -/
def taskIds (calls : List ToolCall) (group : List String) : List String :=
  (matchingCalls calls group).map ToolCall.id

/-- Trace of one group's execution: `asyncio.gather` starts every
matching task, then the join observes their completions in an
arbitrary order `perm`. -/
def groupTrace (calls : List ToolCall) (group : List String)
    (perm : List String) : List Ev :=
  (taskIds calls group).map Ev.start ++ perm.map Ev.resolve

/-- Trace of the EXECUTE node's group loop under a choice of
per-group completion orders. -/
def executorTrace (calls : List ToolCall) (groups perms : List (List String)) :
    List Ev :=
  ((groups.zip perms).map (fun gp => groupTrace calls gp.1 gp.2)).flatten

/-- Two registered calls used to instantiate the executor-trace
theorems on a concrete plan. -/
def c6Calls : List ToolCall :=
  [{ id := "a", tool_name := "t1", parameters := "p" },
   { id := "b", tool_name := "t2", parameters := "q" }]

theorem zip_append_of_length_eq {α β : Type} (l1 : List α) (l2 : List β)
    (r1 : List α) (r2 : List β) (h : l1.length = l2.length) :
    (l1 ++ r1).zip (l2 ++ r2) = l1.zip l2 ++ r1.zip r2 := by
  induction l1 generalizing l2 with
  | nil =>
    cases l2 with
    | nil => simp
    | cons b t2 => simp at h
  | cons a t ih =>
    cases l2 with
    | nil => simp at h
    | cons b t2 =>
      simp only [List.length_cons, Nat.add_right_cancel_iff] at h
      simp [ih t2 h]

theorem mem_taskIds_of_start_mem_groupTrace (calls : List ToolCall)
    (g p : List String) (x : String)
    (h : Ev.start x ∈ groupTrace calls g p) : x ∈ taskIds calls g := by
  unfold groupTrace at h
  rcases List.mem_append.mp h with h1 | h2
  · rcases List.mem_map.mp h1 with ⟨y, hy, hxy⟩
    exact (Ev.start.inj hxy) ▸ hy
  · rcases List.mem_map.mp h2 with ⟨y, _, hxy⟩
    exact Ev.noConfusion hxy

/-- A typed schema-validation failure, as the structured
language-model interface reports it. -/
structure ValidationErr where
  message : String
deriving DecidableEq, Repr

/-- Modelled from the spec: `llm.invoke_structured` — its
implementation (`llm.py`) is not among the sources.  Per the external
interface (§6 of the spec) it yields either a schema-conformant object
or a typed validation failure, and per the schema-validation design
(auto-retry) it retries the call up to `retries` further times, the
attempt index letting the oracle observe the re-prompt; after the last
failed attempt the typed failure is returned. -/
def invoke_structured {α : Type} (oracle : ℕ → Except ValidationErr α) :
    ℕ → ℕ → Except ValidationErr α
  | attempt, 0 => oracle attempt
  | attempt, retries + 1 =>
    match oracle attempt with
    | .ok a => .ok a
    | .error _ => invoke_structured oracle (attempt + 1) retries

/-- UNDERSTAND node (`understand_query`, src/unnamed/part_000:146-158):
one structured call with the understanding schema; the resulting
object (or the validation failure, if every attempt fails) is
returned unchanged — the node adds no fallback of its own. -/
def understand_query (oracle : ℕ → Except ValidationErr QueryUnderstanding) :
    List ExtCall × Except ValidationErr QueryUnderstanding :=
  ([ExtCall.llm "UNDERSTAND_PROMPT"], invoke_structured oracle 0 2)

/-- PLAN node (`plan_data_retrieval`, src/unnamed/part_000:170-184):
pass the understanding, the available tools and any previous feedback
to the structured model call and return the resulting plan
unchanged. -/
def plan_data_retrieval
    (oracle : QueryUnderstanding → String → ℕ → Except ValidationErr DataPlan)
    (understanding : QueryUnderstanding) (feedback : String) :
    List ExtCall × Except ValidationErr DataPlan :=
  ([ExtCall.llm "PLANNER_PROMPT"], invoke_structured (oracle understanding feedback) 0 2)

/-- `Nodup` as a boolean check. -/
def nodupB : List String → Bool
  | [] => true
  | x :: xs => !(xs.contains x) && nodupB xs

/-- Every `depends_on` id of a call placed in a group must name a call
of an earlier group (`seen` accumulates the ids of earlier groups). -/
def dependsEarlierB (calls : List ToolCall) :
    List String → List (List String) → Bool
  | _, [] => true
  | seen, g :: rest =>
    (calls.all fun c =>
      !(g.contains c.id) || c.depends_on.all (fun d => seen.contains d)) &&
    dependsEarlierB calls (seen ++ g) rest

/-- Modelled from the spec (§3 and §8): the plan-validity invariant —
the ids across the parallel groups are exactly the ids of
`tool_calls`, with no duplicates, and every `depends_on` id refers to
a call in an earlier group. -/
def planValid (plan : DataPlan) : Bool :=
  nodupB plan.parallel_groups.flatten &&
  nodupB (plan.tool_calls.map ToolCall.id) &&
  plan.parallel_groups.flatten.all
    (fun x => (plan.tool_calls.map ToolCall.id).contains x) &&
  (plan.tool_calls.map ToolCall.id).all
    (fun x => plan.parallel_groups.flatten.contains x) &&
  dependsEarlierB plan.tool_calls [] plan.parallel_groups

/-- A sample query understanding used to instantiate node theorems. -/
def uSample : QueryUnderstanding :=
  { query_type := .comparison, scope := .full_race
    drivers := ["VER", "HAM"], teams := [], races := ["Monaco 2024"]
    seasons := [2024], metrics := ["lap_time"], sub_queries := []
    hypothetical_answer := "", confidence := 9/10 }

/-- An invalid plan: its single group names an id ("b") that is not
the id of any tool call, and the call id "a" appears in no group. -/
def c4BadPlan : DataPlan :=
  { tool_calls := [{ id := "a", tool_name := "t", parameters := "p" }]
    parallel_groups := [["b"]]
    expected_data_points := 1
    reasoning := "mismatched ids" }

/-- The pluggable aggregation helpers the PROCESS node calls
(`aggregate_lap_times`, `compute_driver_comparison`,
`extract_comparison_insights`, `calculate_completeness`); their
implementations are not among the sources, so they are abstract pure
functions here. -/
structure Aggregators where
  aggregate_lap_times : StoredResult → String
  compute_driver_comparison : (String → Option StoredResult) → String
  extract_comparison_insights : List (String × String) → List String
  calculate_completeness : (String → Option StoredResult) → QueryUnderstanding → ℚ

/-- PROCESS node (`process_data`, src/unnamed/part_000:210-236):
build the `ProcessedAnalysis` from the raw-result dict and the
understanding using only the pure helpers; the node performs no
external call. -/
def process_data (A : Aggregators) (raw_data : String → Option StoredResult)
    (understanding : QueryUnderstanding) : List ExtCall × ProcessedAnalysis :=
  ([],
    let s1 : List (String × String) :=
      match raw_data "lap_times" with
      | some v => [("lap_analysis", A.aggregate_lap_times v)]
      | none => []
    if understanding.query_type = AnalysisType.comparison then
      let s2 := s1 ++ [("comparison", A.compute_driver_comparison raw_data)]
      { summary := s2
        key_insights := A.extract_comparison_insights s2
        completeness_score := A.calculate_completeness raw_data understanding
        confidence_score := 0
        missing_data := []
        recommended_viz := ["lap_progression", "sector_comparison"] }
    else
      { summary := s1
        key_insights := []
        completeness_score := A.calculate_completeness raw_data understanding
        confidence_score := 0
        missing_data := []
        recommended_viz := [] })

/-- Sample aggregation helpers for witnesses. -/
def aggSample : Aggregators :=
  { aggregate_lap_times := fun r =>
      match r with
      | .payload p => p
      | .errorDict m => m
    compute_driver_comparison := fun _ => "cmp"
    extract_comparison_insights := fun s => s.map Prod.fst
    calculate_completeness := fun _ _ => 1/2 }

/-- A sample raw-result dict for witnesses. -/
def rawSample : String → Option StoredResult :=
  fun k => if k = "lap_times" then some (StoredResult.payload "laps") else none

/-- The evaluate/retry loop driven by the EVALUATE node: at each pass
the Evaluator sees the analysis the Aggregator produced for that pass
and the current iteration counter; an insufficient pass stores
`iteration_count = iteration + 1` for the next pass.  Returns whether
a terminal (sufficient) evaluation is reached within `fuel` passes. -/
def loopReachesTerminal (analyses : ℕ → ProcessedAnalysis) :
    ℕ → ℕ → Bool
  | 0, _ => false
  | fuel + 1, iter =>
    if ((evaluate_data (analyses iter) iter).2).evaluation.is_sufficient then
      true
    else
      loopReachesTerminal analyses fuel (iter + 1)

theorem evaluate_data_of_two_le (p : ProcessedAnalysis) (i : ℕ) (h : 2 ≤ i) :
    evaluate_data p i =
      ([], { evaluation := ⟨true, i⟩, evaluation_feedback := none
             iteration_count := none }) := by
  unfold evaluate_data
  rw [if_pos (Or.inr h)]

end F1Agent

namespace F1Agent

/-- C1: the EVALUATE node's decision structure.  If the completeness
score is at least 0.7, or the iteration counter has reached 2, the
node returns a terminal update (`is_sufficient = true`, counter
unchanged, no feedback); otherwise it returns `is_sufficient = false`,
increments the iteration counter by exactly one, and emits feedback
built from the missing-data list.  (Amended: the iteration-bound
terminal is not a distinct `EXHAUSTED` outcome — it is the same update
as the sufficient case.) -/
theorem c1_evaluator_transition (p : ProcessedAnalysis) (i : ℕ) :
    (p.completeness_score ≥ 7/10 ∨ 2 ≤ i →
      evaluate_data p i =
        ([], { evaluation := ⟨true, i⟩, evaluation_feedback := none
               iteration_count := none })) ∧
    (p.completeness_score < 7/10 → i < 2 →
      evaluate_data p i =
        ([], { evaluation := ⟨false, i + 1⟩
               evaluation_feedback := some ("Missing data: " ++
                 pyReprStrList p.missing_data ++
                 ". Need to fetch additional data.")
               iteration_count := some (i + 1) })) := by
  constructor
  · intro h
    unfold evaluate_data
    rw [if_pos (by exact h.imp id (fun h2 => h2))]
  · intro hs hi
    unfold evaluate_data
    rw [if_neg]
    push_neg
    exact ⟨hs, hi⟩

/-- Witness for `c1_evaluator_transition` at concrete inputs. -/
theorem c1_evaluator_transition_witness :
    evaluate_data (mkProcessed (8/10) []) 0 =
      ([], { evaluation := ⟨true, 0⟩, evaluation_feedback := none
             iteration_count := none }) ∧
    evaluate_data (mkProcessed (1/2) ["a"]) 0 =
      ([], { evaluation := ⟨false, 1⟩
             evaluation_feedback :=
               some "Missing data: [\x27a\x27]. Need to fetch additional data."
             iteration_count := some 1 }) :=
  ⟨(c1_evaluator_transition (mkProcessed (8/10) []) 0).1 (Or.inl (by norm_num [mkProcessed])),
   (c1_evaluator_transition (mkProcessed (1/2) ["a"]) 0).2 (by norm_num [mkProcessed]) (by norm_num)⟩

/-- C1 counterexample: the spec's transition function distinguishes
`SUFFICIENT` (score 0.9 at iteration 2) from `EXHAUSTED` (score 0 at
iteration 2), but the code returns the identical update in both cases,
so the code's decision does not realize the spec's three-valued
transition. -/
theorem c1_counterexample :
    specEvalTransition (9/10) 2 = SpecEvalOutcome.sufficient ∧
    specEvalTransition 0 2 = SpecEvalOutcome.exhausted ∧
    evaluate_data (mkProcessed (9/10) ["x"]) 2 =
      evaluate_data (mkProcessed 0 ["x"]) 2 := by
  refine ⟨?_, ?_, ?_⟩
  · unfold specEvalTransition
    rw [if_pos (by norm_num)]
  · unfold specEvalTransition
    rw [if_neg (by norm_num), if_pos (by norm_num)]
  · rw [evaluate_data_of_two_le _ _ (by norm_num),
      evaluate_data_of_two_le _ _ (by norm_num)]

/-- C2: for every sequence of analyses the Aggregator could produce,
the evaluate/retry loop reaches a terminal evaluation within
maxIterations + 1 = 3 passes starting from iteration counter 0. -/
theorem c2_loop_bounded (analyses : ℕ → ProcessedAnalysis) :
    loopReachesTerminal analyses 3 0 = true := by
  unfold loopReachesTerminal
  split
  · rfl
  · unfold loopReachesTerminal
    split
    · rfl
    · unfold loopReachesTerminal
      rw [evaluate_data_of_two_le _ _ (by norm_num)]
      simp

/-- C5 (amended): whenever the iteration bound is reached, the
Evaluator's output is identical to its output on any other analysis at
the same iteration — in particular to a genuinely sufficient one — and
carries `is_sufficient = true` with no feedback and no low-confidence
flag, so an exhausted turn is not distinguishable from a sufficient
turn. -/
theorem c5_exhausted_indistinguishable (p q : ProcessedAnalysis) (i : ℕ)
    (h : 2 ≤ i) :
    evaluate_data p i = evaluate_data q i ∧
    ((evaluate_data p i).2).evaluation.is_sufficient = true ∧
    ((evaluate_data p i).2).evaluation_feedback = none := by
  rw [evaluate_data_of_two_le p i h, evaluate_data_of_two_le q i h]
  exact ⟨rfl, rfl, rfl⟩

/-- Witness for `c5_exhausted_indistinguishable`. -/
theorem c5_exhausted_indistinguishable_witness :
    evaluate_data (mkProcessed (1/10) ["gap"]) 2 =
      evaluate_data (mkProcessed (9/10) []) 2 ∧
    ((evaluate_data (mkProcessed (1/10) ["gap"]) 2).2).evaluation.is_sufficient = true ∧
    ((evaluate_data (mkProcessed (1/10) ["gap"]) 2).2).evaluation_feedback = none :=
  c5_exhausted_indistinguishable (mkProcessed (1/10) ["gap"])
    (mkProcessed (9/10) []) 2 (by norm_num)

/-- C5 counterexample: an exhausted turn (score 0.1 < 0.7 at iteration
2) produces exactly the same outcome as a sufficient turn (score 0.9 ≥
0.7 at iteration 2), refuting that no input makes the two identical. -/
theorem c5_counterexample :
    (1/10 : ℚ) < 7/10 ∧ (9/10 : ℚ) ≥ 7/10 ∧
    evaluate_data (mkProcessed (1/10) ["missing_laps"]) 2 =
      evaluate_data (mkProcessed (9/10) []) 2 := by
  refine ⟨by norm_num, by norm_num, ?_⟩
  rw [evaluate_data_of_two_le _ _ (by norm_num),
    evaluate_data_of_two_le _ _ (by norm_num)]

/-- C9 (amended): on an insufficient evaluation the feedback equals
the code's template `"Missing data: {missing_data}. Need to fetch
additional data."` instantiated with the Python rendering of the
missing-data list, and the node performs no external call (in
particular no language-model call). -/
theorem c9_feedback_template (p : ProcessedAnalysis) (i : ℕ)
    (h1 : p.completeness_score < 7/10) (h2 : i < 2) :
    (evaluate_data p i).1 = [] ∧
    ((evaluate_data p i).2).evaluation_feedback =
      some ("Missing data: " ++ pyReprStrList p.missing_data ++
        ". Need to fetch additional data.") := by
  unfold evaluate_data
  rw [if_neg]
  · exact ⟨rfl, rfl⟩
  · push_neg
    exact ⟨h1, h2⟩

/-- Witness for `c9_feedback_template`. -/
theorem c9_feedback_template_witness :
    (evaluate_data (mkProcessed (4/10) ["driver_b_pace"]) 1).1 = [] ∧
    ((evaluate_data (mkProcessed (4/10) ["driver_b_pace"]) 1).2).evaluation_feedback =
      some "Missing data: [\x27driver_b_pace\x27]. Need to fetch additional data." :=
  c9_feedback_template (mkProcessed (4/10) ["driver_b_pace"]) 1
    (by norm_num [mkProcessed]) (by norm_num)

/-- C9 counterexample: the emitted feedback is the code's template,
which differs from the spec's template `"Missing:
{missing_data}. Retry with broader/alternate retrieval."` instantiated
with the same rendering of the missing-data list. -/
theorem c9_counterexample :
    ((evaluate_data (mkProcessed (4/10) ["driver_b_pace"]) 0).2).evaluation_feedback =
      some "Missing data: [\x27driver_b_pace\x27]. Need to fetch additional data." ∧
    "Missing data: [\x27driver_b_pace\x27]. Need to fetch additional data." ≠
      specFeedbackTemplate (pyReprStrList ["driver_b_pace"]) := by
  constructor
  · unfold evaluate_data
    rw [if_neg (by norm_num [mkProcessed])]
    rfl
  · decide

/-- C3 (amended): for every aligned plan (each group's id list is
exactly the ids of its matching calls, in order and without
repetition, and groups are pairwise disjoint) and every assignment of
tool behaviors — including behaviors that raise — the results dict
maps every executed call's id to that call's recorded outcome, an
exception being recorded as an error dict; in particular a raising
call does not disturb its siblings' entries and every later group's
entries are still written. -/
theorem c3_failure_isolation (tools : Tools) (plan : DataPlan)
    (h : planAligned plan) :
    ∀ g ∈ plan.parallel_groups, ∀ c ∈ matchingCalls plan.tool_calls g,
      execute_tools tools plan c.id = some (wrapOutcome (invokeCall tools c)) := by
  intro g hg c hc
  obtain ⟨s, t, hL⟩ := List.append_of_mem hg
  obtain ⟨hnd, halign⟩ := h.1 g hg
  have hpw := h.2
  rw [hL] at hpw
  have hpw2 := (List.pairwise_append.mp hpw).2.1
  have hdisj := (List.pairwise_cons.mp hpw2).1
  have hcid : c.id ∈ g := id_mem_of_mem_matchingCalls plan.tool_calls g c hc
  unfold execute_tools
  rw [hL, List.foldl_append, List.foldl_cons]
  rw [foldl_runGroup_of_not_mem tools plan.tool_calls t _ c.id
    (fun g' hg' => hdisj g' hg' c.id hcid)]
  exact runGroup_attrib tools plan.tool_calls _ g hnd halign c hc

/-- Witness for `c3_failure_isolation`: a two-group plan where the
first group's only tool raises; the exception is recorded as an error
dict under its id and the second group's call is still recorded. -/
theorem c3_failure_isolation_witness :
    execute_tools
      (fun n _ => if n = "ta" then ToolOutcome.exn "boom" else ToolOutcome.ok "d")
      { tool_calls := [{ id := "a", tool_name := "ta", parameters := "p" },
                       { id := "b", tool_name := "tb", parameters := "q" }]
        parallel_groups := [["a"], ["b"]]
        expected_data_points := 2, reasoning := "r" } "a" =
      some (StoredResult.errorDict "boom") ∧
    execute_tools
      (fun n _ => if n = "ta" then ToolOutcome.exn "boom" else ToolOutcome.ok "d")
      { tool_calls := [{ id := "a", tool_name := "ta", parameters := "p" },
                       { id := "b", tool_name := "tb", parameters := "q" }]
        parallel_groups := [["a"], ["b"]]
        expected_data_points := 2, reasoning := "r" } "b" =
      some (StoredResult.payload "d") :=
  ⟨c3_failure_isolation _ _
      ⟨by decide, by decide⟩ ["a"] (by decide)
      { id := "a", tool_name := "ta", parameters := "p" } (by decide),
   c3_failure_isolation _ _
      ⟨by decide, by decide⟩ ["b"] (by decide)
      { id := "b", tool_name := "tb", parameters := "q" } (by decide)⟩

/-- C3 counterexample: with the misaligned plan `c3BadPlan` (single
call with id "a", group listing "b" before "a") and a tool that
raises, the failure is recorded under "b" and the raising call's id
"a" receives no entry at all, refuting the claim for arbitrary
plans. -/
theorem c3_counterexample :
    execute_tools (fun _ _ => ToolOutcome.exn "boom") c3BadPlan "a" = none ∧
    execute_tools (fun _ _ => ToolOutcome.exn "boom") c3BadPlan "b" =
      some (StoredResult.errorDict "boom") := by
  constructor <;> rfl

/-- C10: the EXECUTE node associates results to ids positionally,
zipping each group's id list against the outcomes of the matching
calls taken in `tool_calls` order.  (i) When the group's id list is
exactly the matching calls' ids in order (and the group has no
duplicates), every id receives its own call's outcome.  (ii) Ids past
the number of matching calls are silently left without a binding by
the group (zip truncation).  (iii) When the group lists ids in a
different order than `tool_calls`, results are attributed to the wrong
ids: with calls a (tool t1) then b (tool t2) and group ["b", "a"], id
"b" receives tool t1's result. -/
theorem c10_positional_zip (tools : Tools) (calls : List ToolCall)
    (m : String → Option StoredResult) (group : List String)
    (hnd : group.Nodup) :
    (group = (matchingCalls calls group).map ToolCall.id →
      ∀ c ∈ matchingCalls calls group,
        runGroup tools calls m group c.id =
          some (wrapOutcome (invokeCall tools c))) ∧
    (∀ x ∈ group.drop (matchingCalls calls group).length,
      runGroup tools calls m group x = m x) ∧
    runGroup (fun n _ => ToolOutcome.ok n)
      [{ id := "a", tool_name := "t1", parameters := "p" },
       { id := "b", tool_name := "t2", parameters := "q" }]
      (fun _ => none) ["b", "a"] "b" = some (StoredResult.payload "t1") := by
  refine ⟨?_, ?_, ?_⟩
  · intro halign c hc
    exact runGroup_attrib tools calls m group hnd halign c hc
  · intro x hx
    exact runGroup_truncates tools calls m group hnd x hx
  · rfl

/-- C6: the EXECUTE node processes parallel groups strictly in
sequence.  For any consecutive groups N and N+1 anywhere in the plan,
and any completion order of group N's tasks (any permutation `pN` of
its task ids), the trace splits as A ++ B where A — the trace of the
groups up to and including N — contains the resolve event of every
group-N task, and contains no start event of any group-(N+1) task:
no call of group N+1 starts before every call of group N has resolved,
while within a group the completion order is unconstrained. -/
theorem c6_group_boundary (calls : List ToolCall)
    (s t ps pt : List (List String)) (gN gN1 pN pN1 : List String)
    (hs : s.length = ps.length)
    (hpermN : pN.Perm (taskIds calls gN))
    (hdisj : List.Pairwise
      (fun g g' => ∀ x ∈ taskIds calls g, x ∉ taskIds calls g')
      (s ++ gN :: gN1 :: t)) :
    executorTrace calls (s ++ gN :: gN1 :: t) (ps ++ pN :: pN1 :: pt) =
      executorTrace calls (s ++ [gN]) (ps ++ [pN]) ++
        executorTrace calls (gN1 :: t) (pN1 :: pt) ∧
    (∀ x ∈ taskIds calls gN,
      Ev.resolve x ∈ executorTrace calls (s ++ [gN]) (ps ++ [pN])) ∧
    (∀ x ∈ taskIds calls gN1,
      Ev.start x ∉ executorTrace calls (s ++ [gN]) (ps ++ [pN])) := by
  have hzip1 : (s ++ gN :: gN1 :: t).zip (ps ++ pN :: pN1 :: pt) =
      s.zip ps ++ (gN, pN) :: (gN1 :: t).zip (pN1 :: pt) := by
    rw [zip_append_of_length_eq s ps _ _ hs]
    rfl
  have hzip2 : (s ++ [gN]).zip (ps ++ [pN]) = s.zip ps ++ [(gN, pN)] := by
    rw [zip_append_of_length_eq s ps _ _ hs]
    rfl
  refine ⟨?_, ?_, ?_⟩
  · unfold executorTrace
    rw [hzip1, hzip2]
    simp [List.map_append, List.flatten_append]
  · intro x hx
    unfold executorTrace
    apply List.mem_flatten.mpr
    refine ⟨groupTrace calls gN pN, ?_, ?_⟩
    · apply List.mem_map.mpr
      refine ⟨(gN, pN), ?_, rfl⟩
      rw [hzip2]
      exact List.mem_append_right _ (List.mem_singleton.mpr rfl)
    · unfold groupTrace
      apply List.mem_append_right
      exact List.mem_map.mpr ⟨x, hpermN.mem_iff.mpr hx, rfl⟩
  · intro x hx hmem
    unfold executorTrace at hmem
    rcases List.mem_flatten.mp hmem with ⟨l, hl, hxl⟩
    rcases List.mem_map.mp hl with ⟨gp, hgp, hfl⟩
    rw [← hfl] at hxl
    have hxg : x ∈ taskIds calls gp.1 :=
      mem_taskIds_of_start_mem_groupTrace calls gp.1 gp.2 x hxl
    rw [hzip2] at hgp
    rcases List.mem_append.mp hgp with h1 | h2
    · have hg1 : gp.1 ∈ s := by
        obtain ⟨g1, p1⟩ := gp
        exact (List.of_mem_zip h1).1
      have hcross := (List.pairwise_append.mp hdisj).2.2
      exact hcross gp.1 hg1 gN1 (by simp) x hxg hx
    · have hgpq : gp = (gN, pN) := List.mem_singleton.mp h2
      have hcons := (List.pairwise_append.mp hdisj).2.1
      have hgNall := (List.pairwise_cons.mp hcons).1
      rw [hgpq] at hxg
      exact hgNall gN1 (by simp) x hxg hx

/-- Witness for `c6_group_boundary` on a concrete two-group plan with
the completion order of group 0 chosen freely. -/
theorem c6_group_boundary_witness :
    Ev.resolve "a" ∈ executorTrace c6Calls [["a"]] [["a"]] ∧
    Ev.start "b" ∉ executorTrace c6Calls [["a"]] [["a"]] :=
  ⟨(c6_group_boundary c6Calls [] [] [] [] ["a"] ["b"] ["a"] ["b"] rfl
      (List.Perm.refl _) (by decide)).2.1 "a" (by decide),
   (c6_group_boundary c6Calls [] [] [] [] ["a"] ["b"] ["a"] ["b"] rfl
      (List.Perm.refl _) (by decide)).2.2 "b" (by decide)⟩

/-- Witness for `c10_positional_zip`: an aligned group where each id
receives its own call's result, and a trailing unmatched id that
receives none. -/
theorem c10_positional_zip_witness :
    runGroup (fun n p => ToolOutcome.ok (n ++ p))
      [{ id := "a", tool_name := "t1", parameters := "p" },
       { id := "b", tool_name := "t2", parameters := "q" }]
      (fun _ => none) ["a", "b"] "a" = some (StoredResult.payload "t1p") ∧
    runGroup (fun n p => ToolOutcome.ok (n ++ p))
      [{ id := "a", tool_name := "t1", parameters := "p" }]
      (fun _ => none) ["a", "zzz"] "zzz" = none :=
  ⟨(c10_positional_zip (fun n p => ToolOutcome.ok (n ++ p))
      [{ id := "a", tool_name := "t1", parameters := "p" },
       { id := "b", tool_name := "t2", parameters := "q" }]
      (fun _ => none) ["a", "b"] (by decide)).1 (by decide)
      { id := "a", tool_name := "t1", parameters := "p" } (by decide),
   (c10_positional_zip (fun n p => ToolOutcome.ok (n ++ p))
      [{ id := "a", tool_name := "t1", parameters := "p" }]
      (fun _ => none) ["a", "zzz"] (by decide)).2.1 "zzz" (by decide)⟩

/-- C4 (amended): the PLAN node performs no DAG validation, no
retry-on-violation and no single-call fallback — whenever the
structured call yields a plan, the node hands exactly that plan to the
Executor even when it violates the plan-validity invariant. -/
theorem c4_no_plan_validation
    (oracle : QueryUnderstanding → String → ℕ → Except ValidationErr DataPlan)
    (u : QueryUnderstanding) (fb : String) (p : DataPlan)
    (hp : invoke_structured (oracle u fb) 0 2 = Except.ok p)
    (_hinvalid : planValid p = false) :
    (plan_data_retrieval oracle u fb).2 = Except.ok p := by
  unfold plan_data_retrieval
  exact hp

/-- Witness for `c4_no_plan_validation`: the model returns the
invalid `c4BadPlan` and the node emits it unchanged. -/
theorem c4_no_plan_validation_witness :
    (plan_data_retrieval (fun _ _ _ => Except.ok c4BadPlan) uSample "").2 =
      Except.ok c4BadPlan :=
  c4_no_plan_validation (fun _ _ _ => Except.ok c4BadPlan) uSample "" c4BadPlan
    rfl (by decide)

/-- C4 counterexample: a plan violating the id-partition invariant is
produced by the model and reaches the Executor unchanged — the claim
that every plan handed to the Executor satisfies the invariant (with
retry and fallback on violation) is false. -/
theorem c4_counterexample :
    (plan_data_retrieval (fun _ _ _ => Except.ok c4BadPlan) uSample "").2 =
      Except.ok c4BadPlan ∧
    planValid c4BadPlan = false :=
  ⟨rfl, by decide⟩

/-- C7 (amended): when schema validation fails on every attempt, the
UNDERSTAND node returns the typed validation failure of the last
attempt — it builds no minimal fallback `QueryUnderstanding`, and the
code's `AnalysisType` enum has no "unknown" member at all, so the
fallback object the claim describes is not even representable. -/
theorem c7_understand_no_fallback
    (oracle : ℕ → Except ValidationErr QueryUnderstanding) (e : ValidationErr)
    (h : ∀ n, oracle n = Except.error e) :
    understand_query oracle = ([ExtCall.llm "UNDERSTAND_PROMPT"], Except.error e) ∧
    (allAnalysisTypes.map AnalysisType.str).contains "unknown" = false := by
  constructor
  · unfold understand_query invoke_structured
    rw [h 0]
    unfold invoke_structured
    rw [h 1]
    unfold invoke_structured
    rw [h 2]
  · decide

/-- Witness for `c7_understand_no_fallback`. -/
theorem c7_understand_no_fallback_witness :
    understand_query (fun _ => Except.error ⟨"schema violation"⟩) =
      ([ExtCall.llm "UNDERSTAND_PROMPT"], Except.error ⟨"schema violation"⟩) ∧
    (allAnalysisTypes.map AnalysisType.str).contains "unknown" = false :=
  c7_understand_no_fallback (fun _ => Except.error ⟨"schema violation"⟩)
    ⟨"schema violation"⟩ (fun _ => rfl)

/-- C7 counterexample: an always-invalid model makes `understand_query`
yield a validation failure rather than the minimal fallback object
(intent unknown, confidence 0) — so downstream does not always receive
an understanding object, and no `AnalysisType` member renders as
"unknown". -/
theorem c7_counterexample :
    understand_query (fun _ => Except.error ⟨"malformed"⟩) =
      ([ExtCall.llm "UNDERSTAND_PROMPT"], Except.error ⟨"malformed"⟩) ∧
    (allAnalysisTypes.map AnalysisType.str).contains "unknown" = false :=
  ⟨rfl, by decide⟩

/-- C8: the PROCESS node (the Aggregator) performs no external call —
no language-model or tool invocation — and its result is a
deterministic function of the raw-result dict and the understanding:
pointwise-equal inputs give identical `ProcessedAnalysis` values, for
every choice of the pure aggregation helpers. -/
theorem c8_aggregator_deterministic (A : Aggregators)
    (raw raw' : String → Option StoredResult) (u : QueryUnderstanding)
    (h : ∀ k, raw k = raw' k) :
    (process_data A raw u).1 = [] ∧
    process_data A raw u = process_data A raw' u := by
  have hfun : raw = raw' := funext h
  subst hfun
  exact ⟨rfl, rfl⟩

/-- Witness for `c8_aggregator_deterministic`. -/
theorem c8_aggregator_deterministic_witness :
    (process_data aggSample rawSample uSample).1 = [] ∧
    process_data aggSample rawSample uSample =
      process_data aggSample rawSample uSample :=
  c8_aggregator_deterministic aggSample rawSample rawSample uSample (fun _ => rfl)

end F1Agent
